import Mathlib

/-!
Verification of the upload-coordination core of `fox-celebration-uploads`.

The definitions below are a shallow embedding of the TypeScript sources:

* `src/atoms/uploadStateMachine.ts` — the per-transfer state machine
  (`STATE_TRANSITIONS`, `canTransition`, `getNextState`,
  `UploadStateMachine.send`, `createUploadStateMachine`,
  `isPlaceholderState`);
* `src/atoms/overallProgressStateMachine.ts` — the session state machine
  (`OVERALL_STATE_TRANSITIONS`, `getNextOverallState`,
  `determineEventFromContext`);
* `src/atoms/uploads.ts` — the registry atoms (`uploadsAtom` read/write,
  `overallProgressAtom`, `addFilesAtom`, `prepareUploadsAtom`,
  `cancelUploadAtom`, `cancelAllActiveUploadsAtom`,
  `clearRemovableUploadsAtom`, `retryUploadAtom`, `isPlaceholderFile`);
* `src/lib/localStorage.ts` — the serializable projection and the
  in-memory `FileCache`.

JavaScript `File` objects are modelled by `FileModel` (name, size, MIME
type, last-modified stamp); `AbortController` references are modelled by
opaque token identifiers (strings), and "aborting" a token is modelled by
collecting the aborted token identifiers that an operation produces.
`crypto.randomUUID` is modelled by passing the generated identifiers as
an input.  Registry objects (`Record<string, UploadItem>`) are modelled
as lists of items in insertion order.
-/

/-- States of the per-transfer machine (`UploadState` in
`uploadStateMachine.ts`). -/
inductive UploadState
  | idle | queued | reserving | ready | uploading
  | success | error | canceled | retrying
deriving DecidableEq, Fintype, Repr

/-- Events of the per-transfer machine (`UploadEvent`). -/
inductive UploadEvent
  | ADD_FILE | START_RESERVE | RESERVE_SUCCESS | RESERVE_ERROR
  | START_UPLOAD | UPLOAD_PROGRESS | UPLOAD_SUCCESS | UPLOAD_ERROR
  | CANCEL | RETRY | REMOVE
deriving DecidableEq, Fintype, Repr

/-- The transition table `STATE_TRANSITIONS` of `uploadStateMachine.ts`:
`none` models the absence of the event key in the state's record. -/
def STATE_TRANSITIONS : UploadState → UploadEvent → Option UploadState
  | .idle, .ADD_FILE => some .queued
  | .queued, .START_RESERVE => some .reserving
  | .queued, .REMOVE => some .idle
  | .queued, .CANCEL => some .canceled
  | .reserving, .RESERVE_SUCCESS => some .ready
  | .reserving, .RESERVE_ERROR => some .error
  | .reserving, .CANCEL => some .canceled
  | .reserving, .REMOVE => some .idle
  | .ready, .START_UPLOAD => some .uploading
  | .ready, .CANCEL => some .canceled
  | .ready, .REMOVE => some .idle
  | .uploading, .UPLOAD_PROGRESS => some .uploading
  | .uploading, .UPLOAD_SUCCESS => some .success
  | .uploading, .UPLOAD_ERROR => some .error
  | .uploading, .CANCEL => some .canceled
  | .success, .REMOVE => some .idle
  | .error, .RETRY => some .retrying
  | .error, .REMOVE => some .idle
  | .canceled, .RETRY => some .retrying
  | .canceled, .REMOVE => some .idle
  | .retrying, .START_RESERVE => some .reserving
  | .retrying, .RESERVE_SUCCESS => some .ready
  | .retrying, .START_UPLOAD => some .uploading
  | .retrying, .UPLOAD_SUCCESS => some .success
  | .retrying, .UPLOAD_ERROR => some .error
  | .retrying, .CANCEL => some .canceled
  | .retrying, .REMOVE => some .idle
  | _, _ => none

/-- `canTransition` of `uploadStateMachine.ts`: the event key is present
in the current state's row. -/
def canTransition (s : UploadState) (e : UploadEvent) : Bool :=
  (STATE_TRANSITIONS s e).isSome

/-- `getNextState` of `uploadStateMachine.ts`: destination state when the
transition is listed, the current state otherwise (the
`validTransitions[event] || currentState` fallback). -/
def getNextState (s : UploadState) (e : UploadEvent) : UploadState :=
  if canTransition s e then (STATE_TRANSITIONS s e).getD s else s

/-- Transition table of §4.1 of the specification, written from the
spec's own rows.  This is the reference side of the refinement theorem
for claim C1; it is intentionally written from the spec's table, not
from the code. -/
def specTransitionTable : UploadState → UploadEvent → Option UploadState
  | .idle, .ADD_FILE => some .queued
  | .queued, .START_RESERVE => some .reserving
  | .queued, .CANCEL => some .canceled
  | .queued, .REMOVE => some .idle
  | .reserving, .RESERVE_SUCCESS => some .ready
  | .reserving, .RESERVE_ERROR => some .error
  | .reserving, .CANCEL => some .canceled
  | .reserving, .REMOVE => some .idle
  | .ready, .START_UPLOAD => some .uploading
  | .ready, .CANCEL => some .canceled
  | .ready, .REMOVE => some .idle
  | .uploading, .UPLOAD_PROGRESS => some .uploading
  | .uploading, .UPLOAD_SUCCESS => some .success
  | .uploading, .UPLOAD_ERROR => some .error
  | .uploading, .CANCEL => some .canceled
  | .success, .REMOVE => some .idle
  | .error, .RETRY => some .retrying
  | .error, .REMOVE => some .idle
  | .canceled, .RETRY => some .retrying
  | .canceled, .REMOVE => some .idle
  | .retrying, .START_RESERVE => some .reserving
  | .retrying, .RESERVE_SUCCESS => some .ready
  | .retrying, .START_UPLOAD => some .uploading
  | .retrying, .UPLOAD_SUCCESS => some .success
  | .retrying, .UPLOAD_ERROR => some .error
  | .retrying, .CANCEL => some .canceled
  | .retrying, .REMOVE => some .idle
  | _, _ => none

/-- C1: for every transfer state `S` and event `E`, `getNextState S E`
returns exactly the destination state listed in the spec's §4.1
transition table when `(S, E)` is listed there, and returns `S` itself
when it is not; in particular the `uploading` row accepts
UPLOAD_PROGRESS→uploading, UPLOAD_SUCCESS→success, UPLOAD_ERROR→error,
CANCEL→canceled, and the `retrying` row accepts START_RESERVE→reserving,
RESERVE_SUCCESS→ready, START_UPLOAD→uploading, UPLOAD_SUCCESS→success,
UPLOAD_ERROR→error, CANCEL→canceled, REMOVE→idle. -/
theorem c1_getNextState_matches_spec_table :
    (∀ s e, getNextState s e = (specTransitionTable s e).getD s) ∧
    getNextState .uploading .UPLOAD_PROGRESS = .uploading ∧
    getNextState .uploading .UPLOAD_SUCCESS = .success ∧
    getNextState .uploading .UPLOAD_ERROR = .error ∧
    getNextState .uploading .CANCEL = .canceled ∧
    getNextState .retrying .START_RESERVE = .reserving ∧
    getNextState .retrying .RESERVE_SUCCESS = .ready ∧
    getNextState .retrying .START_UPLOAD = .uploading ∧
    getNextState .retrying .UPLOAD_SUCCESS = .success ∧
    getNextState .retrying .UPLOAD_ERROR = .error ∧
    getNextState .retrying .CANCEL = .canceled ∧
    getNextState .retrying .REMOVE = .idle := by
  decide

/-- Model of a JavaScript `File` object: the fields the code reads. -/
structure FileModel where
  name : String
  size : Nat
  type : String
  lastModified : Int
deriving DecidableEq, Repr

/-- The `"PUT" | "POST"` union used for the reserved destination. -/
inductive UploadMethod | PUT | POST
deriving DecidableEq, Repr

/-- The machine context `UploadContext` of `uploadStateMachine.ts`.
`controller` holds an opaque cancellation-token identifier. -/
structure UploadContext where
  id : String
  file : FileModel
  fileSize : Nat
  progress : Nat
  error : Option String := none
  remoteId : Option String := none
  uploadUrl : Option String := none
  method : Option UploadMethod := none
  controller : Option String := none
deriving DecidableEq, Repr

/-- A `Partial<UploadContext>` payload: the outer `Option` on each field
records whether the key is present in the payload object (a present key
may still carry the value `undefined`, hence the nested `Option`s). -/
structure PartialContext where
  id : Option String := none
  file : Option FileModel := none
  fileSize : Option Nat := none
  progress : Option Nat := none
  error : Option (Option String) := none
  remoteId : Option (Option String) := none
  uploadUrl : Option (Option String) := none
  method : Option (Option UploadMethod) := none
  controller : Option (Option String) := none
deriving DecidableEq, Repr

/-- Object-spread merge `{ ...context, ...payload }`: a key present in
the payload overrides the context field, an absent key keeps it. -/
def mergeContext (c : UploadContext) (p : PartialContext) : UploadContext where
  id := p.id.getD c.id
  file := p.file.getD c.file
  fileSize := p.fileSize.getD c.fileSize
  progress := p.progress.getD c.progress
  error := p.error.getD c.error
  remoteId := p.remoteId.getD c.remoteId
  uploadUrl := p.uploadUrl.getD c.uploadUrl
  method := p.method.getD c.method
  controller := p.controller.getD c.controller

/-- A live `UploadStateMachine` instance: its private `state` and
`context` fields. -/
structure UploadStateMachine where
  state : UploadState
  context : UploadContext
deriving DecidableEq, Repr

/-- The `send` method of `UploadStateMachine`: returns the machine after
the call together with its boolean return value (`false` = "no state
change and no context update"). -/
def UploadStateMachine.send (m : UploadStateMachine) (e : UploadEvent)
    (payload : Option PartialContext) : UploadStateMachine × Bool :=
  let nextState := getNextState m.state e
  if nextState = m.state ∧ payload.isNone then
    (m, false)
  else
    let ctx := match payload with
      | some p => mergeContext m.context p
      | none => m.context
    ({ state := nextState, context := ctx }, true)

/-- The `createUploadStateMachine` helper: initial state `idle`, context
seeded from the file (note `fileSize := file.size`). -/
def createUploadStateMachine (file : FileModel) (id : String) : UploadStateMachine where
  state := .idle
  context := { id := id, file := file, fileSize := file.size, progress := 0 }

/-- Substring test on character lists, modelling JavaScript
`String.prototype.includes`. -/
def charsInclude (sub : List Char) : List Char → Bool
  | [] => sub.isEmpty
  | c :: t => sub.isPrefixOf (c :: t) || charsInclude sub t

/-- JavaScript `s.includes(sub)`. -/
def strIncludes (s sub : String) : Bool :=
  charsInclude sub.data s.data

/-- The `isPlaceholderState` helper of `uploadStateMachine.ts`. -/
def isPlaceholderState (s : UploadState) (c : UploadContext) : Bool :=
  decide (s = .error) && decide (c.file.size = 0) && decide (0 < c.fileSize) &&
    ((c.error.map (fun e => strIncludes e "page refresh")).getD false)

/-- C4 as stated is false: on an invalid `(state, event)` pair, `send`
with a context payload does merge the payload and leaves the state
unchanged, but it returns `true`, not the `false` "no-op" indicator
(which is only returned when no payload is supplied).  Concretely, from
state `success` the event CANCEL is not in the transition table, yet
`send CANCEL {progress := 5}` returns `true`. -/
theorem c4_counterexample_invalid_event_with_payload_returns_true :
    canTransition .success .CANCEL = false ∧
    (UploadStateMachine.send
      { state := .success,
        context := { id := "a", file := ⟨"f.txt", 3, "text/plain", 0⟩,
                     fileSize := 3, progress := 100 } }
      .CANCEL (some { progress := some 5 })).2 = true := by
  constructor
  · rfl
  · rfl

/-- C4 amended: for every machine `m` and event `E` not listed in the
transition table for `m.state`, `send E payload` leaves the state
unchanged and still merges any supplied context payload; the "no-op"
indicator `false` is returned exactly when no payload is supplied (the
call is then completely effect-free), while a call that carries a
payload returns `true`. -/
theorem c4_send_on_invalid_event (m : UploadStateMachine) (e : UploadEvent)
    (payload : Option PartialContext) (h : canTransition m.state e = false) :
    (m.send e payload).1.state = m.state ∧
    (payload = none → m.send e payload = (m, false)) ∧
    (∀ p, payload = some p →
      (m.send e payload).1.context = mergeContext m.context p ∧
      (m.send e payload).2 = true) := by
  have hnext : getNextState m.state e = m.state := by
    unfold getNextState
    simp [h]
  refine ⟨?_, ?_, ?_⟩
  · cases payload with
    | none => simp [UploadStateMachine.send, hnext]
    | some p => simp [UploadStateMachine.send, hnext]
  · intro hp
    subst hp
    simp [UploadStateMachine.send, hnext]
  · intro p hp
    subst hp
    simp [UploadStateMachine.send, hnext]

/-- Witness for the amended C4 at a concrete machine: from `success`,
CANCEL is invalid; without a payload `send` is the no-op `(m, false)`,
and with payload `{progress := 5}` the context is merged and `true`
returned. -/
theorem c4_send_on_invalid_event_witness :
    (canTransition UploadState.success .CANCEL = false) ∧
    ((UploadStateMachine.mk .success
        { id := "a", file := ⟨"f.txt", 3, "text/plain", 0⟩,
          fileSize := 3, progress := 100 }).send .CANCEL none =
      (UploadStateMachine.mk .success
        { id := "a", file := ⟨"f.txt", 3, "text/plain", 0⟩,
          fileSize := 3, progress := 100 }, false)) := by
  refine ⟨by decide, ?_⟩
  exact (c4_send_on_invalid_event
    (UploadStateMachine.mk .success
      { id := "a", file := ⟨"f.txt", 3, "text/plain", 0⟩,
        fileSize := 3, progress := 100 }) .CANCEL none (by decide)).2.1 rfl

/-- States of the session machine (`OverallProgressState` in
`overallProgressStateMachine.ts`). -/
inductive OverallProgressState
  | idle | preparing | ready | uploading
  | completed | partialState | failed | canceled
deriving DecidableEq, Fintype, Repr

/-- Events of the session machine (`OverallProgressEvent`). -/
inductive OverallProgressEvent
  | FILES_ADDED | PREPARATION_STARTED | PREPARATION_COMPLETED
  | UPLOAD_STARTED | UPLOAD_PROGRESS | ALL_COMPLETED
  | SOME_FAILED | ALL_FAILED | ALL_CANCELED | RESET
deriving DecidableEq, Fintype, Repr

/-- The transition table `OVERALL_STATE_TRANSITIONS` of
`overallProgressStateMachine.ts`. -/
def OVERALL_STATE_TRANSITIONS :
    OverallProgressState → OverallProgressEvent → Option OverallProgressState
  | .idle, .FILES_ADDED => some .preparing
  | .preparing, .PREPARATION_COMPLETED => some .ready
  | .preparing, .SOME_FAILED => some .partialState
  | .preparing, .ALL_FAILED => some .failed
  | .preparing, .ALL_CANCELED => some .canceled
  | .preparing, .RESET => some .idle
  | .ready, .UPLOAD_STARTED => some .uploading
  | .ready, .SOME_FAILED => some .partialState
  | .ready, .ALL_FAILED => some .failed
  | .ready, .ALL_CANCELED => some .canceled
  | .ready, .RESET => some .idle
  | .uploading, .UPLOAD_PROGRESS => some .uploading
  | .uploading, .ALL_COMPLETED => some .completed
  | .uploading, .SOME_FAILED => some .partialState
  | .uploading, .ALL_FAILED => some .failed
  | .uploading, .ALL_CANCELED => some .canceled
  | .uploading, .RESET => some .idle
  | .completed, .RESET => some .idle
  | .completed, .FILES_ADDED => some .preparing
  | .partialState, .UPLOAD_STARTED => some .uploading
  | .partialState, .ALL_COMPLETED => some .completed
  | .partialState, .ALL_FAILED => some .failed
  | .partialState, .ALL_CANCELED => some .canceled
  | .partialState, .RESET => some .idle
  | .partialState, .FILES_ADDED => some .preparing
  | .failed, .UPLOAD_STARTED => some .uploading
  | .failed, .SOME_FAILED => some .partialState
  | .failed, .ALL_COMPLETED => some .completed
  | .failed, .ALL_CANCELED => some .canceled
  | .failed, .RESET => some .idle
  | .failed, .FILES_ADDED => some .preparing
  | .canceled, .UPLOAD_STARTED => some .uploading
  | .canceled, .ALL_COMPLETED => some .completed
  | .canceled, .SOME_FAILED => some .partialState
  | .canceled, .ALL_FAILED => some .failed
  | .canceled, .RESET => some .idle
  | .canceled, .FILES_ADDED => some .preparing
  | _, _ => none

/-- `canTransitionOverall` of `overallProgressStateMachine.ts`. -/
def canTransitionOverall (s : OverallProgressState) (e : OverallProgressEvent) : Bool :=
  (OVERALL_STATE_TRANSITIONS s e).isSome

/-- `getNextOverallState` of `overallProgressStateMachine.ts`. -/
def getNextOverallState (s : OverallProgressState) (e : OverallProgressEvent) :
    OverallProgressState :=
  if canTransitionOverall s e then (OVERALL_STATE_TRANSITIONS s e).getD s else s

/-- The session context snapshot (`OverallProgressContext`).  Counts are
JavaScript numbers holding integers, modelled by `Int` so that the
subtractions in `determineEventFromContext` behave as in the source. -/
structure OverallProgressContext where
  totalFiles : Int
  completedFiles : Int
  failedFiles : Int
  canceledFiles : Int
  uploadingFiles : Int
  preparingFiles : Int
  readyFiles : Int
  overallProgress : Int
  hasRetryableFiles : Bool
  hasPlaceholderFiles : Bool
deriving DecidableEq, Repr

/-- The private `determineEventFromContext` method, as a function of the
machine's current state and context. -/
def determineEventFromContext (state : OverallProgressState)
    (c : OverallProgressContext) : Option OverallProgressEvent :=
  if c.totalFiles = 0 then
    if state ≠ .idle then some .RESET else none
  else if state = .idle ∧ 0 < c.totalFiles then
    some .FILES_ADDED
  else if c.canceledFiles = c.totalFiles then
    if state ≠ .canceled then some .ALL_CANCELED else none
  else if c.completedFiles = c.totalFiles then
    if state ≠ .completed then some .ALL_COMPLETED else none
  else if 0 < c.totalFiles - c.canceledFiles ∧
      c.failedFiles = c.totalFiles - c.canceledFiles then
    if state ≠ .failed then some .ALL_FAILED else none
  else if 0 < c.completedFiles ∧ (0 < c.failedFiles ∨ 0 < c.canceledFiles) then
    if state ≠ .partialState then some .SOME_FAILED else none
  else if 0 < c.uploadingFiles then
    if state = .ready ∨ state = .partialState ∨ state = .failed then
      some .UPLOAD_STARTED
    else if state ≠ .uploading then some .UPLOAD_PROGRESS else none
  else if 0 < c.preparingFiles then
    if state ≠ .preparing then some .PREPARATION_STARTED else none
  else if c.totalFiles - c.completedFiles - c.failedFiles - c.canceledFiles -
      c.uploadingFiles - c.preparingFiles = c.totalFiles then
    if state ≠ .ready then some .PREPARATION_COMPLETED else none
  else
    none

/-- Destination state that each derived session event drives toward:
the state named by the guard of the rule that fires the event (and, for
the events that appear in the transition table, the state in every row
that lists them). -/
def eventTargetState : OverallProgressEvent → OverallProgressState
  | .FILES_ADDED => .preparing
  | .PREPARATION_STARTED => .preparing
  | .PREPARATION_COMPLETED => .ready
  | .UPLOAD_STARTED => .uploading
  | .UPLOAD_PROGRESS => .uploading
  | .ALL_COMPLETED => .completed
  | .SOME_FAILED => .partialState
  | .ALL_FAILED => .failed
  | .ALL_CANCELED => .canceled
  | .RESET => .idle

/-- The §4.2 precedence rules, written from the specification's own
wording (first match wins; the idempotence guard of each rule compares
the current state with the rule's destination).  This is the reference
side of the refinement theorem for claim C2. -/
def specDetermineEvent (state : OverallProgressState)
    (c : OverallProgressContext) : Option OverallProgressEvent :=
  -- rule 1: `totalFiles == 0` → RESET (to idle) if not already idle
  if c.totalFiles = 0 then
    if state ≠ .idle then some .RESET else none
  -- rule 2: currently idle and `totalFiles > 0` → FILES_ADDED
  else if state = .idle ∧ 0 < c.totalFiles then
    some .FILES_ADDED
  -- rule 3: `canceledFiles == totalFiles` → ALL_CANCELED
  else if c.canceledFiles = c.totalFiles then
    if state ≠ .canceled then some .ALL_CANCELED else none
  -- rule 4: `completedFiles == totalFiles` → ALL_COMPLETED
  else if c.completedFiles = c.totalFiles then
    if state ≠ .completed then some .ALL_COMPLETED else none
  -- rule 5: all non-canceled transfers failed, and that quantity > 0
  else if c.failedFiles = c.totalFiles - c.canceledFiles ∧
      0 < c.totalFiles - c.canceledFiles then
    if state ≠ .failed then some .ALL_FAILED else none
  -- rule 6: `completedFiles > 0` and (`failedFiles > 0` or `canceledFiles > 0`)
  else if 0 < c.completedFiles ∧ (0 < c.failedFiles ∨ 0 < c.canceledFiles) then
    if state ≠ .partialState then some .SOME_FAILED else none
  -- rule 7: `uploadingFiles > 0` → UPLOAD_STARTED if leaving
  -- ready/partial/failed, else UPLOAD_PROGRESS (stay)
  else if 0 < c.uploadingFiles then
    if state = .ready ∨ state = .partialState ∨ state = .failed then
      some .UPLOAD_STARTED
    else if state ≠ .uploading then some .UPLOAD_PROGRESS else none
  -- rule 8: `preparingFiles > 0` → PREPARATION_STARTED
  else if 0 < c.preparingFiles then
    if state ≠ .preparing then some .PREPARATION_STARTED else none
  -- rule 9: remaining transfers are all in the "ready" bucket
  else if c.totalFiles - c.completedFiles - c.failedFiles - c.canceledFiles -
      c.uploadingFiles - c.preparingFiles = c.totalFiles then
    if state ≠ .ready then some .PREPARATION_COMPLETED else none
  else
    none

/-- Snapshot in which every transfer is canceled. -/
def ctxAllCanceled : OverallProgressContext where
  totalFiles := 1
  completedFiles := 0
  failedFiles := 0
  canceledFiles := 1
  uploadingFiles := 0
  preparingFiles := 0
  readyFiles := 0
  overallProgress := 0
  hasRetryableFiles := false
  hasPlaceholderFiles := false

/-- C2's trailing clause "each rule fires only if it would change the
current state" is false as stated: from session state `completed` with a
non-empty snapshot in which every transfer is canceled, the machine
derives (fires) ALL_CANCELED, yet sending ALL_CANCELED in state
`completed` does not change the state (`completed` accepts only RESET
and FILES_ADDED), so a rule fired without being able to change the
state. -/
theorem c2_counterexample_rule_fires_without_state_change :
    determineEventFromContext .completed ctxAllCanceled = some .ALL_CANCELED ∧
    getNextOverallState .completed .ALL_CANCELED = .completed := by
  constructor
  · decide
  · decide

/-- The `UploadStatus` union of `uploads.ts` / `localStorage.ts`: the
seven statuses a registry record (and its persisted projection) can
hold. -/
inductive UploadStatus
  | queued | reserving | ready | uploading | success | error | canceled
deriving DecidableEq, Fintype, Repr

/-- The live registry record `UploadItem` of `uploads.ts`.  `controller`
is an opaque cancellation-token identifier; `stateMachine` is the
attached `UploadStateMachine` instance. -/
structure UploadItemRec where
  id : String
  file : FileModel
  fileSize : Nat
  progress : Nat
  status : UploadStatus
  error : Option String := none
  remoteId : Option String := none
  uploadUrl : Option String := none
  method : Option UploadMethod := none
  controller : Option String := none
  stateMachine : Option UploadStateMachine := none
deriving DecidableEq, Repr

/-- The persisted projection `SerializableUploadItem` of
`localStorage.ts`. -/
structure SerializableUploadItem where
  id : String
  fileName : String
  fileSize : Nat
  fileType : String
  fileLastModified : Int
  progress : Nat
  status : UploadStatus
  error : Option String := none
  remoteId : Option String := none
  uploadUrl : Option String := none
  method : Option UploadMethod := none
deriving DecidableEq, Repr

/-- Serialization of one record, as performed by the write function of
`uploadsAtom` (note it stores `upload.file.size`, not `upload.fileSize`,
in the `fileSize` field). -/
def serializeRecord (u : UploadItemRec) : SerializableUploadItem where
  id := u.id
  fileName := u.file.name
  fileSize := u.file.size
  fileType := u.file.type
  fileLastModified := u.file.lastModified
  progress := u.progress
  status := u.status
  error := u.error
  remoteId := u.remoteId
  uploadUrl := u.uploadUrl
  method := u.method

/-- Error message used by the read function of `uploadsAtom` for records
whose payload was lost while they were in flight. -/
def interruptedMsg : String :=
  "Upload was interrupted when the page refreshed. Please re-add this file to continue."

/-- Error message used by the read function of `uploadsAtom` for records
whose payload was lost in any other state. -/
def lostMsg : String :=
  "This file was lost when the page refreshed due to browser security. Please re-add it to upload."

/-- Fixed message produced by `retryUploadAtom` when retrying a
placeholder record. -/
def cannotRetryMsg : String :=
  "Cannot retry - file was lost during page refresh. Please re-add the file."

/-- Replay of the deterministic event sequence that the read function of
`uploadsAtom` sends to a fresh machine to match a persisted `status`. -/
def rebuildStateMachine (file : FileModel) (item : SerializableUploadItem) :
    UploadStateMachine :=
  let m0 := createUploadStateMachine file item.id
  let reserveSuccessPayload : PartialContext :=
    { remoteId := some item.remoteId, uploadUrl := some item.uploadUrl,
      method := some item.method }
  match item.status with
  | .queued => ((m0.send .ADD_FILE none).1)
  | .reserving => (((m0.send .ADD_FILE none).1.send .START_RESERVE none).1)
  | .ready =>
    ((((m0.send .ADD_FILE none).1.send .START_RESERVE none).1.send
      .RESERVE_SUCCESS (some reserveSuccessPayload)).1)
  | .uploading =>
    (((((m0.send .ADD_FILE none).1.send .START_RESERVE none).1.send
      .RESERVE_SUCCESS (some reserveSuccessPayload)).1.send .START_UPLOAD none).1)
  | .success =>
    ((((((m0.send .ADD_FILE none).1.send .START_RESERVE none).1.send
      .RESERVE_SUCCESS (some reserveSuccessPayload)).1.send
      .START_UPLOAD none).1.send .UPLOAD_SUCCESS none).1)
  | .error =>
    (((m0.send .ADD_FILE none).1.send .START_RESERVE none).1.send
      .RESERVE_ERROR (some { error := some item.error })).1
  | .canceled => (((m0.send .ADD_FILE none).1.send .CANCEL none).1)

/-- Rehydration of one persisted record by the read function of
`uploadsAtom`: `cached` is the payload found (or not) for the record's
id in the in-memory file cache. -/
def rehydrateRecord (item : SerializableUploadItem) (cached : Option FileModel) :
    UploadItemRec :=
  match cached with
  | some file =>
    { id := item.id, file := file, fileSize := item.fileSize,
      progress := item.progress, status := item.status, error := item.error,
      remoteId := item.remoteId, uploadUrl := item.uploadUrl,
      method := item.method, controller := none,
      stateMachine := some (rebuildStateMachine file item) }
  | none =>
    let placeholderFile : FileModel :=
      { name := item.fileName, size := 0, type := item.fileType,
        lastModified := item.fileLastModified }
    let errorMessage :=
      if item.status = .uploading ∨ item.status = .reserving then interruptedMsg
      else lostMsg
    let m0 := createUploadStateMachine placeholderFile item.id
    { id := item.id, file := placeholderFile, fileSize := item.fileSize,
      progress := item.progress, status := .error, error := some errorMessage,
      remoteId := item.remoteId, uploadUrl := item.uploadUrl,
      method := item.method, controller := none,
      stateMachine := some ((((m0.send .ADD_FILE none).1.send
        .START_RESERVE none).1.send
        .RESERVE_ERROR (some { error := some (some errorMessage) })).1) }

/-- C5: writing the serializable projection of a record and reading it
back with its payload still present in the in-memory file cache (the
write function stores exactly `u.file` under the record's id)
reproduces identical `status`, `progress`, and destination fields
(`remoteId`, `uploadUrl`, `method`); rehydrating a record whose payload
is absent from the cache yields a record with a zero-byte placeholder
payload, status forced to `error`, and one of the two restart-loss
messages, regardless of the persisted prior status. -/
theorem c5_persistence_round_trip :
    (∀ u : UploadItemRec,
      (rehydrateRecord (serializeRecord u) (some u.file)).status = u.status ∧
      (rehydrateRecord (serializeRecord u) (some u.file)).progress = u.progress ∧
      (rehydrateRecord (serializeRecord u) (some u.file)).remoteId = u.remoteId ∧
      (rehydrateRecord (serializeRecord u) (some u.file)).uploadUrl = u.uploadUrl ∧
      (rehydrateRecord (serializeRecord u) (some u.file)).method = u.method ∧
      (rehydrateRecord (serializeRecord u) (some u.file)).file = u.file) ∧
    (∀ item : SerializableUploadItem,
      (rehydrateRecord item none).status = .error ∧
      (rehydrateRecord item none).file.size = 0 ∧
      (rehydrateRecord item none).fileSize = item.fileSize ∧
      ((rehydrateRecord item none).error = some interruptedMsg ∨
        (rehydrateRecord item none).error = some lostMsg) ∧
      strIncludes (((rehydrateRecord item none).error).getD "") "page refresh" = true) := by
  constructor
  · intro u
    exact ⟨rfl, rfl, rfl, rfl, rfl, rfl⟩
  · intro item
    refine ⟨rfl, rfl, rfl, ?_, ?_⟩
    · by_cases h : item.status = .uploading ∨ item.status = .reserving
      · left
        simp [rehydrateRecord, h]
      · right
        simp [rehydrateRecord, h]
    · by_cases h : item.status = .uploading ∨ item.status = .reserving
      · simp only [rehydrateRecord, h, if_pos]
        decide
      · simp only [rehydrateRecord, h, if_neg, not_false_iff]
        decide

/-- JavaScript `Math.round(p / q)` for a natural numerator and a positive
natural denominator, computed exactly on rationals: rounding half away
from zero upward, `round(p/q) = ⌊p/q + 1/2⌋ = (2p + q) / (2q)` in natural
division.  (For the magnitudes involved — sums of per-file percentages —
double-precision division is exact enough that the float computation
agrees with the rational one.) -/
def jsRoundDiv (p q : Nat) : Nat :=
  (2 * p + q) / (2 * q)

/-- The `progressSum` reduce of `overallProgressAtom` in `uploads.ts`:
successful files contribute 100, uploading files their current progress,
everything else 0. -/
def progressSum (uploads : List UploadItemRec) : Nat :=
  uploads.foldl
    (fun sum u =>
      match u.status with
      | .success => sum + 100
      | .uploading => sum + u.progress
      | _ => sum + 0)
    0

/-- The `overallProgress` computation of `overallProgressAtom`:
`totalFiles > 0 ? Math.round(progressSum / totalFiles) : 0`. -/
def overallProgress (uploads : List UploadItemRec) : Nat :=
  if 0 < uploads.length then jsRoundDiv (progressSum uploads) uploads.length else 0

/-- Specification-side `contribution(t)` of §4.5: 100 for `success`, the
transfer's own progress for `uploading`, 0 otherwise. -/
def contribution (u : UploadItemRec) : Nat :=
  if u.status = .success then 100
  else if u.status = .uploading then u.progress
  else 0

theorem progressSum_foldl_eq (l : List UploadItemRec) (n : Nat) :
    l.foldl
      (fun sum u =>
        match u.status with
        | .success => sum + 100
        | .uploading => sum + u.progress
        | _ => sum + 0)
      n = n + (l.map contribution).sum := by
  induction l generalizing n with
  | nil => simp
  | cons u t ih =>
    have hstep :
        (match u.status with
          | .success => n + 100
          | .uploading => n + u.progress
          | _ => n + 0) = n + contribution u := by
      cases h : u.status <;> simp [contribution, h]
    simp only [List.foldl_cons, List.map_cons, List.sum_cons, hstep, ih]
    omega

theorem progressSum_eq (l : List UploadItemRec) :
    progressSum l = (l.map contribution).sum := by
  simpa using progressSum_foldl_eq l 0

theorem jsRoundDiv_eq_round (p q : Nat) (hq : 0 < q) :
    (jsRoundDiv p q : ℤ) = round ((p : ℚ) / (q : ℚ)) := by
  have hq0 : (q : ℚ) ≠ 0 := by exact_mod_cast hq.ne'
  have hx : (p : ℚ) / (q : ℚ) + 1 / 2 = ((2 * p + q : ℕ) : ℚ) / ((2 * q : ℕ) : ℚ) := by
    push_cast
    field_simp
    ring
  have hnn : (0 : ℚ) ≤ ((2 * p + q : ℕ) : ℚ) / ((2 * q : ℕ) : ℚ) := by positivity
  rw [round_eq, hx, ← Int.natCast_floor_eq_floor hnn, Nat.floor_div_eq_div]
  simp [jsRoundDiv]

/-- Sample record for the concrete instance of C3: a successful
transfer. -/
def c3SuccessItem : UploadItemRec where
  id := "s"
  file := ⟨"a.txt", 10, "text/plain", 0⟩
  fileSize := 10
  progress := 100
  status := .success

/-- Sample record for the concrete instance of C3: a failed transfer
stuck at progress 90. -/
def c3ErrorItem : UploadItemRec where
  id := "e"
  file := ⟨"b.txt", 10, "text/plain", 0⟩
  fileSize := 10
  progress := 90
  status := .error

/-- C3: for every non-empty list of transfers, the computed overall
progress equals `round(sum(contribution(t)) / totalFiles)` with
`contribution` as in §4.5 (success → 100, uploading → own progress,
everything else — error, canceled, queued, ready, reserving — → 0); in
particular for one `success` transfer and one `error` transfer at
progress 90 the result is `round((100 + 0) / 2) = 50`. -/
theorem c3_overall_progress_rounds_contribution_sum :
    (∀ l : List UploadItemRec, l ≠ [] →
      (overallProgress l : ℤ) =
        round (((l.map contribution).sum : ℚ) / (l.length : ℚ))) ∧
    overallProgress [c3SuccessItem, c3ErrorItem] = 50 := by
  constructor
  · intro l hl
    have hlen : 0 < l.length := List.length_pos.mpr hl
    rw [overallProgress, if_pos hlen, progressSum_eq]
    exact jsRoundDiv_eq_round _ _ hlen
  · decide

/-- Witness for C3 at the concrete two-transfer session. -/
theorem c3_overall_progress_rounds_contribution_sum_witness :
    ([c3SuccessItem, c3ErrorItem] ≠ ([] : List UploadItemRec)) ∧
    (overallProgress [c3SuccessItem, c3ErrorItem] : ℤ) =
      round ((([c3SuccessItem, c3ErrorItem].map contribution).sum : ℚ) /
        (([c3SuccessItem, c3ErrorItem] : List UploadItemRec).length : ℚ)) :=
  ⟨by decide, c3_overall_progress_rounds_contribution_sum.1 _ (by decide)⟩

set_option maxHeartbeats 2000000 in
/-- C2 amended: given any snapshot, the session machine derives its
event by the first-match-wins precedence of §4.2 (all-canceled before
all-completed, before all-non-canceled-failed, before partial, before
uploading — UPLOAD_STARTED only when leaving ready/partial/failed, else
UPLOAD_PROGRESS — before preparing, before all-remaining-ready), and
each rule fires only if the current state differs from the fired event's
destination state.  (The original claim's stronger reading — that a
fired rule always actually changes the state — is refuted separately at
a concrete completed-session snapshot.) -/
theorem c2_determine_event_matches_spec_precedence
    (st : OverallProgressState) (c : OverallProgressContext) :
    determineEventFromContext st c = specDetermineEvent st c ∧
    (∀ e, determineEventFromContext st c = some e → st ≠ eventTargetState e) := by
  constructor
  · unfold determineEventFromContext specDetermineEvent
    refine if_congr Iff.rfl rfl ?_
    refine if_congr Iff.rfl rfl ?_
    refine if_congr Iff.rfl rfl ?_
    refine if_congr Iff.rfl rfl ?_
    exact if_congr and_comm rfl rfl
  · intro e h
    unfold determineEventFromContext at h
    split_ifs at h <;>
      first
        | exact Option.noConfusion h
        | (injection h with he; subst he;
           cases st <;> simp_all [eventTargetState])

/-- Witness for the amended C2 at a concrete state and snapshot: from
`uploading` with all transfers canceled, the code and the spec
precedence agree, and the state differs from the fired event's
destination. -/
theorem c2_determine_event_matches_spec_precedence_witness :
    determineEventFromContext .uploading ctxAllCanceled =
      specDetermineEvent .uploading ctxAllCanceled ∧
    OverallProgressState.uploading ≠ eventTargetState .ALL_CANCELED :=
  ⟨(c2_determine_event_matches_spec_precedence .uploading ctxAllCanceled).1,
    (c2_determine_event_matches_spec_precedence .uploading ctxAllCanceled).2
      .ALL_CANCELED (by decide)⟩

/-- The `isPlaceholderFile` helper of `uploads.ts`: prefers the attached
state machine (via `isPlaceholderState`), falling back to the raw field
comparison only when no machine is attached. -/
def isPlaceholderFile (u : UploadItemRec) : Bool :=
  match u.stateMachine with
  | some m => isPlaceholderState m.state m.context
  | none => decide (u.file.size = 0) && decide (0 < u.fileSize)

/-- The "uploads already started" guard shared by `addFilesAtom` and
`prepareUploadsAtom`: some transfer is reserving/uploading, or some
transfer already succeeded. -/
def uploadsStarted (uploads : List UploadItemRec) : Bool :=
  decide (0 < (uploads.filter
    (fun u => decide (u.status = .reserving) || decide (u.status = .uploading))).length) ||
  decide (0 < (uploads.filter (fun u => decide (u.status = .success))).length)

/-- Fresh record created by `addFilesAtom` for one payload: `queued`,
progress 0, machine advanced by ADD_FILE. -/
def mkQueuedItem (id : String) (file : FileModel) : UploadItemRec where
  id := id
  file := file
  fileSize := file.size
  progress := 0
  status := .queued
  stateMachine := some ((createUploadStateMachine file id).send .ADD_FILE none).1

/-- `addFilesAtom`: the generated record identifiers (`crypto.randomUUID`
in the source) are passed alongside each payload. -/
def addFiles (uploads : List UploadItemRec) (files : List (String × FileModel)) :
    List UploadItemRec :=
  if uploadsStarted uploads then uploads
  else uploads ++ files.map (fun p => mkQueuedItem p.1 p.2)

/-- Fresh record created by the add step of `prepareUploadsAtom`:
`reserving`, machine advanced by ADD_FILE and START_RESERVE. -/
def mkReservingItem (id : String) (file : FileModel) : UploadItemRec where
  id := id
  file := file
  fileSize := file.size
  progress := 0
  status := .reserving
  stateMachine := some
    (((createUploadStateMachine file id).send .ADD_FILE none).1.send .START_RESERVE none).1

/-- The synchronous add step of `prepareUploadsAtom` (before any
reservation request is issued): empty input returns early, a started
session is a no-op, otherwise one `reserving` record per payload is
appended. -/
def prepareAddStep (uploads : List UploadItemRec) (files : List (String × FileModel)) :
    List UploadItemRec :=
  if files.length = 0 then uploads
  else if uploadsStarted uploads then uploads
  else uploads ++ files.map (fun p => mkReservingItem p.1 p.2)

/-- C7's code path: the synchronous decision of `retryUploadAtom`. -/
inductive RetryAction
  | noop
  | placeholderFail
  | proceed
deriving DecidableEq, Repr

/-- The synchronous prefix of `retryUploadAtom`: no record or a record
not in `error` → no-op; a record detected as placeholder → immediate
re-fail with the fixed `cannotRetryMsg` (no network call of any kind);
otherwise reset to `ready`/`progress 0`/cleared error and controller
before the transmit logic runs (the asynchronous transmit itself is
beyond this synchronous prefix and marked by `RetryAction.proceed`;
`retryUploadAtom` never contacts the reservation endpoint on any path). -/
def retryStep (uploads : List UploadItemRec) (id : String) :
    RetryAction × List UploadItemRec :=
  match uploads.find? (fun u => decide (u.id = id)) with
  | none => (.noop, uploads)
  | some u =>
    if u.status ≠ .error then (.noop, uploads)
    else if isPlaceholderFile u then
      (.placeholderFail,
        uploads.map (fun v =>
          if v.id = id then { v with status := .error, error := some cannotRetryMsg }
          else v))
    else
      (.proceed,
        uploads.map (fun v =>
          if v.id = id then
            { v with status := .ready, progress := 0, error := none, controller := none }
          else v))

/-- Persisted projection of a transfer that was uploading when the
process restarted; its payload is gone from the cache. -/
def c7PersistedPlaceholder : SerializableUploadItem where
  id := "a"
  fileName := "f.txt"
  fileSize := 1000
  fileType := "text/plain"
  fileLastModified := 0
  progress := 37
  status := .uploading
  remoteId := some "r1"
  uploadUrl := some "https://example.test/upload/r1"
  method := some .PUT

/-- The rehydrated placeholder record for C7's failing input. -/
def c7Placeholder : UploadItemRec :=
  rehydrateRecord c7PersistedPlaceholder none

/-- C7 is right about the intent but the code is wrong: the rehydrated
record satisfies everything the claim requires of a placeholder (status
`error`, live payload size 0, declared size > 0, restart-loss message),
yet `isPlaceholderFile` reports `false` — the attached machine's context
was seeded by `createUploadStateMachine` with `fileSize := file.size`,
which is 0 for the zero-byte placeholder file, so the `fileSize > 0`
conjunct of `isPlaceholderState` can never hold — and `retry` therefore
takes the non-placeholder branch: it resets the record to `ready` with
progress 0 and proceeds to transmit instead of immediately re-failing
with the fixed "cannot retry" message (which is also distinct from both
restart-loss messages). -/
theorem c7_codebug_retry_on_placeholder_proceeds :
    (c7Placeholder.status = .error ∧ c7Placeholder.file.size = 0 ∧
      0 < c7Placeholder.fileSize ∧
      strIncludes (c7Placeholder.error.getD "") "page refresh" = true) ∧
    isPlaceholderFile c7Placeholder = false ∧
    (retryStep [c7Placeholder] "a").1 = .proceed ∧
    (retryStep [c7Placeholder] "a").2 =
      [{ c7Placeholder with
          status := .ready, progress := 0, error := none, controller := none }] ∧
    cannotRetryMsg ≠ interruptedMsg ∧ cannotRetryMsg ≠ lostMsg := by
  refine ⟨⟨rfl, rfl, ?_, ?_⟩, ?_, rfl, ?_, ?_, ?_⟩ <;> decide

theorem uploadsStarted_iff (uploads : List UploadItemRec) :
    uploadsStarted uploads = true ↔
      ∃ u ∈ uploads,
        u.status = .reserving ∨ u.status = .uploading ∨ u.status = .success := by
  have key : ∀ p : UploadItemRec → Bool,
      (0 < (uploads.filter p).length ↔ ∃ u ∈ uploads, p u = true) := by
    intro p
    rw [← List.countP_eq_length_filter]
    exact List.countP_pos_iff
  unfold uploadsStarted
  simp only [Bool.or_eq_true, decide_eq_true_eq, key]
  constructor
  · rintro (⟨u, hu, h | h⟩ | ⟨u, hu, h⟩)
    · exact ⟨u, hu, Or.inl h⟩
    · exact ⟨u, hu, Or.inr (Or.inl h)⟩
    · exact ⟨u, hu, Or.inr (Or.inr h)⟩
  · rintro ⟨u, hu, h | h | h⟩
    · exact Or.inl ⟨u, hu, Or.inl h⟩
    · exact Or.inl ⟨u, hu, Or.inr h⟩
    · exact Or.inr ⟨u, hu, h⟩

/-- C6: if any existing transfer is `reserving` or `uploading`, or any
transfer is `success`, then `addFiles` and the add step of
`prepareUploads` leave the set of transfer records completely unchanged;
otherwise `addFiles` appends one record per payload in the `queued`
state under the supplied freshly generated identifier. -/
theorem c6_add_files_frozen_batch
    (uploads : List UploadItemRec) (files : List (String × FileModel)) :
    ((∃ u ∈ uploads,
        u.status = .reserving ∨ u.status = .uploading ∨ u.status = .success) →
      addFiles uploads files = uploads ∧ prepareAddStep uploads files = uploads) ∧
    ((∀ u ∈ uploads,
        ¬(u.status = .reserving ∨ u.status = .uploading ∨ u.status = .success)) →
      addFiles uploads files = uploads ++ files.map (fun p => mkQueuedItem p.1 p.2)) := by
  constructor
  · intro h
    have hs : uploadsStarted uploads = true := (uploadsStarted_iff uploads).mpr h
    constructor
    · simp [addFiles, hs]
    · by_cases hf : files.length = 0
      · simp [prepareAddStep, hf]
      · simp [prepareAddStep, hf, hs]
  · intro h
    have hs : uploadsStarted uploads = false := by
      cases hb : uploadsStarted uploads
      · rfl
      · obtain ⟨u, hu, hp⟩ := (uploadsStarted_iff uploads).mp hb
        exact absurd hp (h u hu)
    simp [addFiles, hs]

/-- Already-running transfer used by C6's witness. -/
def c6UploadingItem : UploadItemRec where
  id := "w1"
  file := ⟨"w.txt", 4, "text/plain", 0⟩
  fileSize := 4
  progress := 50
  status := .uploading

/-- Idle (queued) transfer used by C6's witness. -/
def c6QueuedItem : UploadItemRec where
  id := "w2"
  file := ⟨"q.txt", 4, "text/plain", 0⟩
  fileSize := 4
  progress := 0
  status := .queued

/-- Payload offered to the session in C6's witness. -/
def c6NewFile : String × FileModel :=
  ("n1", ⟨"n.txt", 7, "text/plain", 0⟩)

/-- Witness for C6: with one `uploading` transfer both add operations
are no-ops; with only a `queued` transfer, `addFiles` appends the new
`queued` record. -/
theorem c6_add_files_frozen_batch_witness :
    (addFiles [c6UploadingItem] [c6NewFile] = [c6UploadingItem] ∧
      prepareAddStep [c6UploadingItem] [c6NewFile] = [c6UploadingItem]) ∧
    addFiles [c6QueuedItem] [c6NewFile] =
      [c6QueuedItem] ++ [c6NewFile].map (fun p => mkQueuedItem p.1 p.2) :=
  ⟨(c6_add_files_frozen_batch [c6UploadingItem] [c6NewFile]).1
      ⟨c6UploadingItem, by decide, by decide⟩,
    (c6_add_files_frozen_batch [c6QueuedItem] [c6NewFile]).2 (by decide)⟩

/-- Transform applied by the cancel operations to one record:
`{ ...upload, status: "canceled", controller: undefined }`, with the
attached machine (mutated in place in the source by `send("CANCEL")`)
advanced accordingly. -/
def cancelRecord (u : UploadItemRec) : UploadItemRec :=
  { u with status := .canceled, controller := none,
           stateMachine := u.stateMachine.map (fun m => (m.send .CANCEL none).1) }

/-- The `upload.status === "uploading" || upload.status === "reserving"`
test of `cancelAllActiveUploadsAtom`. -/
def isActiveStatus (u : UploadItemRec) : Bool :=
  decide (u.status = .uploading) || decide (u.status = .reserving)

/-- `cancelAllActiveUploadsAtom`: the updated registry together with the
identifiers of the cancellation tokens it aborts (`controller.abort()`
is called exactly for active records that carry a controller). -/
def cancelAllActiveUploads (uploads : List UploadItemRec) :
    List UploadItemRec × List String :=
  (uploads.map (fun u => if isActiveStatus u then cancelRecord u else u),
   uploads.filterMap (fun u => if isActiveStatus u then u.controller else none))

/-- C8: `cancelAll` changes exactly the records whose status is
`reserving` or `uploading` — each becomes `canceled` with its token
reference cleared (`cancelRecord`) and its token (when present) aborted
— while every record in any other status is left completely untouched,
and only tokens of active records are aborted. -/
theorem c8_cancel_all_active_frame (uploads : List UploadItemRec) :
    (cancelAllActiveUploads uploads).1.length = uploads.length ∧
    (∀ (i : Nat) (u : UploadItemRec), uploads[i]? = some u →
      ((u.status = .uploading ∨ u.status = .reserving) →
        (cancelAllActiveUploads uploads).1[i]? = some (cancelRecord u)) ∧
      (¬(u.status = .uploading ∨ u.status = .reserving) →
        (cancelAllActiveUploads uploads).1[i]? = some u)) ∧
    (∀ u ∈ uploads, (u.status = .uploading ∨ u.status = .reserving) →
      ∀ t, u.controller = some t → t ∈ (cancelAllActiveUploads uploads).2) ∧
    (∀ t ∈ (cancelAllActiveUploads uploads).2,
      ∃ u ∈ uploads,
        (u.status = .uploading ∨ u.status = .reserving) ∧ u.controller = some t) := by
  refine ⟨by simp [cancelAllActiveUploads], ?_, ?_, ?_⟩
  · intro i u hu
    constructor
    · intro hact
      have ha : isActiveStatus u = true := by
        rcases hact with h1 | h1 <;> simp [isActiveStatus, h1]
      simp [cancelAllActiveUploads, List.getElem?_map, hu, ha]
    · intro hin
      have ha : isActiveStatus u = false := by
        have h1 := not_or.mp hin
        simp [isActiveStatus, h1.1, h1.2]
      simp [cancelAllActiveUploads, List.getElem?_map, hu, ha]
  · intro u hu hact t ht
    have ha : isActiveStatus u = true := by
      rcases hact with h1 | h1 <;> simp [isActiveStatus, h1]
    simp only [cancelAllActiveUploads, List.mem_filterMap]
    exact ⟨u, hu, by simp [ha, ht]⟩
  · intro t ht
    simp only [cancelAllActiveUploads, List.mem_filterMap] at ht
    obtain ⟨u, hu, hf⟩ := ht
    by_cases ha : isActiveStatus u = true
    · refine ⟨u, hu, ?_, ?_⟩
      · have := ha
        simp only [isActiveStatus, Bool.or_eq_true, decide_eq_true_eq] at this
        exact this
      · simpa [ha] using hf
    · simp [ha] at hf

/-- Record in flight with a live token, used by C8's witness. -/
def c8Uploading : UploadItemRec where
  id := "u1"
  file := ⟨"u1.txt", 9, "text/plain", 0⟩
  fileSize := 9
  progress := 40
  status := .uploading
  controller := some "t1"

/-- Record still reserving with a live token, used by C8's witness. -/
def c8Reserving : UploadItemRec where
  id := "u2"
  file := ⟨"u2.txt", 9, "text/plain", 0⟩
  fileSize := 9
  progress := 0
  status := .reserving
  controller := some "t2"

/-- Finished record, used by C8's witness. -/
def c8Success : UploadItemRec where
  id := "u3"
  file := ⟨"u3.txt", 9, "text/plain", 0⟩
  fileSize := 9
  progress := 100
  status := .success

/-- The three-record batch of C8's concrete scenario. -/
def c8Batch : List UploadItemRec := [c8Uploading, c8Reserving, c8Success]

/-- Witness for C8 at the concrete batch: the `uploading` and
`reserving` records become `canceled` with cleared (and aborted) tokens,
the `success` record is untouched. -/
theorem c8_cancel_all_active_frame_witness :
    (cancelAllActiveUploads c8Batch).1[0]? = some (cancelRecord c8Uploading) ∧
    (cancelAllActiveUploads c8Batch).1[1]? = some (cancelRecord c8Reserving) ∧
    (cancelAllActiveUploads c8Batch).1[2]? = some c8Success ∧
    "t1" ∈ (cancelAllActiveUploads c8Batch).2 ∧
    "t2" ∈ (cancelAllActiveUploads c8Batch).2 :=
  ⟨((c8_cancel_all_active_frame c8Batch).2.1 0 c8Uploading rfl).1 (Or.inl rfl),
   ((c8_cancel_all_active_frame c8Batch).2.1 1 c8Reserving rfl).1 (Or.inr rfl),
   ((c8_cancel_all_active_frame c8Batch).2.1 2 c8Success rfl).2 (by decide),
   (c8_cancel_all_active_frame c8Batch).2.2.1 c8Uploading (by decide)
     (Or.inl rfl) "t1" rfl,
   (c8_cancel_all_active_frame c8Batch).2.2.1 c8Reserving (by decide)
     (Or.inr rfl) "t2" rfl⟩

/-- Model of the in-memory `FileCache` of `localStorage.ts` (a `Map`
from record id to payload), as an association list in insertion order. -/
abbrev FileCacheModel := List (String × FileModel)

/-- `fileCache.get(id)`. -/
def cacheGet (cache : FileCacheModel) (id : String) : Option FileModel :=
  (cache.find? (fun p => decide (p.1 = id))).map (fun p => p.2)

/-- `fileCache.set(id, file)`: replaces the value of an existing key in
place, appends a new entry otherwise (JavaScript `Map` semantics). -/
def cacheSet (cache : FileCacheModel) (id : String) (f : FileModel) : FileCacheModel :=
  if (cache.find? (fun p => decide (p.1 = id))).isSome then
    cache.map (fun p => if p.1 = id then (id, f) else p)
  else
    cache ++ [(id, f)]

/-- The cache effect of the write function of `uploadsAtom`: it calls
`fileCache.set(id, upload.file)` for every record of the new registry
value — and nothing else (in particular it deletes nothing). -/
def writeFilesToCache (uploads : List UploadItemRec) (cache : FileCacheModel) :
    FileCacheModel :=
  uploads.foldl (fun cc u => cacheSet cc u.id u.file) cache

/-- `clearRemovableUploadsAtom`: keeps only the records currently
`uploading` and writes that filtered registry back through
`uploadsAtom`, whose write function re-stores the kept payloads in the
cache; no payload is ever deleted from the cache on this path. -/
def clearRemovableUploads (uploads : List UploadItemRec) (cache : FileCacheModel) :
    List UploadItemRec × FileCacheModel :=
  let next := uploads.filter (fun u => decide (u.status = .uploading))
  (next, writeFilesToCache next cache)

theorem find?_append_left {α : Type} (p : α → Bool) (l₁ l₂ : List α) (a : α)
    (h : l₁.find? p = some a) : (l₁ ++ l₂).find? p = some a := by
  induction l₁ with
  | nil => simp [List.find?] at h
  | cons x t ih =>
    rw [List.cons_append]
    by_cases hx : p x
    · rw [List.find?_cons_of_pos _ hx] at h ⊢
      exact h
    · rw [List.find?_cons_of_neg _ hx] at h
      rw [List.find?_cons_of_neg _ hx]
      exact ih h

theorem cacheGet_cacheSet_isSome (cache : FileCacheModel) (kid : String)
    (f : FileModel) (id : String) (h : (cacheGet cache id).isSome = true) :
    (cacheGet (cacheSet cache kid f) id).isSome = true := by
  obtain ⟨q, hq⟩ : ∃ q, cache.find? (fun p => decide (p.1 = id)) = some q := by
    unfold cacheGet at h
    cases hfind : cache.find? (fun p => decide (p.1 = id)) with
    | none => rw [hfind] at h; simp at h
    | some q => exact ⟨q, rfl⟩
  unfold cacheGet cacheSet
  by_cases hk : (cache.find? (fun p => decide (p.1 = kid))).isSome = true
  · rw [if_pos hk]
    rw [List.find?_map]
    have hcomp : ((fun p : String × FileModel => decide (p.1 = id)) ∘
        (fun p : String × FileModel => if p.1 = kid then (kid, f) else p)) =
        fun p : String × FileModel => decide (p.1 = id) := by
      funext p
      by_cases hp : p.1 = kid
      · simp [Function.comp, hp]
      · simp [Function.comp, hp]
    rw [hcomp, hq]
    simp
  · rw [if_neg hk, find?_append_left _ _ _ _ hq]
    simp

theorem writeFilesToCache_isSome (uploads : List UploadItemRec) :
    ∀ (cache : FileCacheModel) (id : String),
      (cacheGet cache id).isSome = true →
      (cacheGet (writeFilesToCache uploads cache) id).isSome = true := by
  induction uploads with
  | nil => intro cache id h; simpa [writeFilesToCache] using h
  | cons u t ih =>
    intro cache id h
    have h1 := cacheGet_cacheSet_isSome cache u.id u.file id h
    simpa [writeFilesToCache] using ih (cacheSet cache u.id u.file) id h1

/-- Finished record used for C9's concrete scenario. -/
def c9SuccessItem : UploadItemRec where
  id := "a"
  file := ⟨"a.txt", 5, "text/plain", 0⟩
  fileSize := 5
  progress := 100
  status := .success

/-- Cache holding the payload of `c9SuccessItem`. -/
def c9Cache : FileCacheModel := [("a", ⟨"a.txt", 5, "text/plain", 0⟩)]

/-- C9 as stated is false: `clearRemovable` on a registry holding one
`success` record removes the record from the registry, but it does NOT
evict the record's payload from the in-memory file cache — the payload
is still retrievable under the removed record's id afterwards (only
`remove` and `clearAll` call `fileCache.delete`; `clearRemovable` never
does). -/
theorem c9_counterexample_no_cache_eviction :
    (clearRemovableUploads [c9SuccessItem] c9Cache).1 = [] ∧
    cacheGet (clearRemovableUploads [c9SuccessItem] c9Cache).2 "a" =
      some ⟨"a.txt", 5, "text/plain", 0⟩ := by
  constructor
  · decide
  · decide

/-- C9 amended: `clearRemovable` retains exactly the records whose
status is `uploading` (the only non-removable state) and removes every
other record from the registry, but it does not evict any payload from
the in-memory file cache — every payload present in the cache before the
call is still present afterwards. -/
theorem c9_clear_removable_keeps_uploading_no_eviction
    (uploads : List UploadItemRec) (cache : FileCacheModel) :
    (∀ u : UploadItemRec,
      u ∈ (clearRemovableUploads uploads cache).1 ↔
        u ∈ uploads ∧ u.status = .uploading) ∧
    (∀ id : String, (cacheGet cache id).isSome = true →
      (cacheGet (clearRemovableUploads uploads cache).2 id).isSome = true) := by
  constructor
  · intro u
    simp [clearRemovableUploads, List.mem_filter]
  · intro id h
    exact writeFilesToCache_isSome _ cache id h

/-- Witness for the amended C9 at the concrete scenario: the registry
filter applies and the cached payload survives the call. -/
theorem c9_clear_removable_keeps_uploading_no_eviction_witness :
    (c9SuccessItem ∈ (clearRemovableUploads [c9SuccessItem] c9Cache).1 ↔
      c9SuccessItem ∈ [c9SuccessItem] ∧ c9SuccessItem.status = .uploading) ∧
    (cacheGet (clearRemovableUploads [c9SuccessItem] c9Cache).2 "a").isSome = true :=
  ⟨(c9_clear_removable_keeps_uploading_no_eviction [c9SuccessItem] c9Cache).1
      c9SuccessItem,
    (c9_clear_removable_keeps_uploading_no_eviction [c9SuccessItem] c9Cache).2
      "a" (by decide)⟩

/-- `cancelUploadAtom`: looks the record up by id; when present it
aborts the record's token (the returned list of aborted token
identifiers), sends CANCEL to its machine, and stores the record back
as `canceled` with the token reference cleared, keeping it in the
registry; an unknown id is a silent no-op. -/
def cancelUpload (uploads : List UploadItemRec) (id : String) :
    List UploadItemRec × List String :=
  match uploads.find? (fun u => decide (u.id = id)) with
  | none => (uploads, [])
  | some u =>
    (uploads.map (fun v => if v.id = id then cancelRecord v else v),
     u.controller.toList)

/-- C10: `cancel(id)` is not guarded by the record's state — for every
existing record, regardless of its current status, `cancelUpload` sets
that record's status to `canceled` and clears its controller reference
(`cancelRecord`), keeps the record in the registry (same length, other
records untouched), aborts only the found record's token, and is a
silent no-op when the id is unknown. -/
theorem c10_cancel_upload_unguarded (uploads : List UploadItemRec) (id : String) :
    (uploads.find? (fun u => decide (u.id = id)) = none →
      cancelUpload uploads id = (uploads, [])) ∧
    (∀ u, uploads.find? (fun u => decide (u.id = id)) = some u →
      (cancelUpload uploads id).1.length = uploads.length ∧
      (∀ (i : Nat) (v : UploadItemRec), uploads[i]? = some v →
        (v.id = id → (cancelUpload uploads id).1[i]? = some (cancelRecord v)) ∧
        (v.id ≠ id → (cancelUpload uploads id).1[i]? = some v)) ∧
      (cancelUpload uploads id).2 = u.controller.toList) := by
  constructor
  · intro hnone
    simp [cancelUpload, hnone]
  · intro u hfound
    refine ⟨?_, ?_, ?_⟩
    · simp [cancelUpload, hfound]
    · intro i v hv
      constructor
      · intro hid
        simp [cancelUpload, hfound, List.getElem?_map, hv, hid]
      · intro hid
        simp [cancelUpload, hfound, List.getElem?_map, hv, hid]
    · simp [cancelUpload, hfound]

/-- Finished record with a live token, used by C10's witness. -/
def c10SuccessItem : UploadItemRec where
  id := "s1"
  file := ⟨"s1.txt", 6, "text/plain", 0⟩
  fileSize := 6
  progress := 100
  status := .success
  controller := some "t9"

/-- Witness for C10: an unknown id leaves the registry untouched and
aborts nothing; canceling an existing `success` record cancels it (and
aborts its token) even though `success` is a terminal status. -/
theorem c10_cancel_upload_unguarded_witness :
    cancelUpload [c10SuccessItem] "zz" = ([c10SuccessItem], []) ∧
    (cancelUpload [c10SuccessItem] "s1").1[0]? = some (cancelRecord c10SuccessItem) ∧
    (cancelUpload [c10SuccessItem] "s1").2 = ["t9"] :=
  ⟨(c10_cancel_upload_unguarded [c10SuccessItem] "zz").1 (by decide),
   (((c10_cancel_upload_unguarded [c10SuccessItem] "s1").2 c10SuccessItem
      (by decide)).2.1 0 c10SuccessItem rfl).1 rfl,
   ((c10_cancel_upload_unguarded [c10SuccessItem] "s1").2 c10SuccessItem
      (by decide)).2.2⟩
